import Mathlib

/-!
Verification of the AR6 scenario-database plotting toolkit
(`ar6_plotting_tools.py`).

The development shallowly embeds the data-wrangling core of the toolkit:

* category-column resolution (`_get_category_column`),
* assessment-status classification (`assign_assessment_status`),
* model-family normalization (`assign_model_families`),
* the (model, scenario)-keyed alignment and masked division used by the
  Kaya-ratio plotters (`plot_kaya_ratio` / `plot_kaya_ratios`),
* the category-colored layers and IMP overlays of
  `plot_timeseries_by_category` and `plot_scatter_boxplot_by_category`,
* the pivot construction of `count_scenarios_by_group`.

Pandas/numpy floating values are modelled as `Option ℚ` (`none` playing the
role of NaN / a missing cell); elementwise division that yields NaN or ±Inf
(zero denominator, NaN operand) is modelled as `none`, matching the fact
that the toolkit masks those positions out with
`~np.isnan(ratio) & ~np.isinf(ratio)` before plotting.  DataFrames become
explicit lists of rows, and the in-place pandas column assignments of the
metadata-enrichment helpers are modelled by explicit state passing over a
store of tables.
-/

/-! ### Character / string helpers

The toolkit uses Python `str.upper`, `str.lower`, `str.strip`,
`str.replace('-', '')` and the substring operator `in`.  We mirror them on
`List Char`. -/

/-- Python whitespace as it occurs in model names (`str.strip` / `\s`). -/
def isPyWhitespace (c : Char) : Bool :=
  c = ' ' || c = '\t' || c = '\n' || c = '\r'

/-- `str.upper` on a character list. -/
def upperStr (l : List Char) : List Char := l.map Char.toUpper

/-- `str.lower` on a character list. -/
def lowerStr (l : List Char) : List Char := l.map Char.toLower

/-- `str.replace('-', '')` on a character list. -/
def removeDashes (l : List Char) : List Char := l.filter (fun c => c ≠ '-')

/-- `str.strip()` on a character list. -/
def stripWS (l : List Char) : List Char :=
  ((l.dropWhile isPyWhitespace).reverse.dropWhile isPyWhitespace).reverse

/-- Does `s` start with `p`?  (Python `s.startswith(p)`.) -/
def leadsWith : List Char → List Char → Bool
  | [], _ => true
  | _ :: _, [] => false
  | a :: as, b :: bs => (a = b) && leadsWith as bs

/-- Python substring test `p in s` on character lists. -/
def containsSub (p : List Char) : List Char → Bool
  | [] => leadsWith p []
  | b :: bs => leadsWith p (b :: bs) || containsSub p bs

/-! ### Category constants (`CATEGORY_COLORS`, `ALL_CATEGORIES`) -/

/-- `CATEGORY_COLORS`: the fixed IPCC AR6 color scheme, keyed by category. -/
def CATEGORY_COLORS : List (String × String) :=
  [("C1", "#97CEE4"), ("C2", "#778663"), ("C3", "#6F7899"), ("C4", "#A7C682"),
   ("C5", "#8CA7D0"), ("C6", "#FAC182"), ("C7", "#F18872"), ("C8", "#BD7161")]

/-- `ALL_CATEGORIES`: the eight fixed category labels, in order. -/
def ALL_CATEGORIES : List String :=
  ["C1", "C2", "C3", "C4", "C5", "C6", "C7", "C8"]

/-- Python `category in CATEGORY_COLORS` (dict membership = key membership). -/
def categoryHasColor (c : String) : Bool :=
  (CATEGORY_COLORS.map Prod.fst).contains c

/-- Python `CATEGORY_COLORS[category]` as a partial lookup. -/
def lookupCategoryColor (c : String) : Option String :=
  (CATEGORY_COLORS.find? (fun p => p.1 = c)).map Prod.snd

/-! ### `_get_category_column` -/

/-- `_get_category_column(meta)`: find the category column among the
metadata column names.  Exact `"Category"`, else exact `"category"`, else
the first column containing `"categ"` case-insensitively, else `none`. -/
def get_category_column (cols : List String) : Option String :=
  if ("Category") ∈ cols then some ("Category")
  else if ("category") ∈ cols then some ("category")
  else (cols.filter (fun c => containsSub ("categ").toList (lowerStr c.toList))).head?

/-! ### `_get_assessment_status` (row-level classification) -/

/-- `_get_assessment_status(category)`: classify one scenario from its
category cell.  `none` models a NaN / missing cell. -/
def get_assessment_status (category : Option String) : String :=
  match category with
  | none => "No assessment"
  | some c =>
    if c ∈ (["C1", "C2", "C3", "C4", "C5", "C6", "C7", "C8"] : List String) then
      "Climate assessed (C1-C8)"
    else if containsSub ("failed").toList (lowerStr c.toList)
         || containsSub ("exclude").toList (lowerStr c.toList) then
      "Failed vetting"
    else
      "No assessment"

/-- C5: category-column resolution returns `"Category"` when present, else
`"category"` when present, else the first column containing `"categ"`
case-insensitively (and `none` when there is no such column, since
`head? [] = none`). -/
theorem get_category_column_spec (cols : List String) :
    (("Category") ∈ cols → get_category_column cols = some ("Category"))
    ∧ (("Category") ∉ cols → ("category") ∈ cols →
        get_category_column cols = some ("category"))
    ∧ (("Category") ∉ cols → ("category") ∉ cols →
        get_category_column cols =
          (cols.filter (fun c => containsSub ("categ").toList (lowerStr c.toList))).head?) := by
  refine ⟨fun h1 => ?_, fun h1 h2 => ?_, fun h1 h2 => ?_⟩
  · simp [get_category_column, h1]
  · simp [get_category_column, h1, h2]
  · simp [get_category_column, h1, h2]

/-- Witness for C5 at concrete column lists. -/
theorem get_category_column_spec_witness :
    get_category_column ["Category", "x"] = some ("Category")
    ∧ get_category_column ["x", "category"] = some ("category")
    ∧ get_category_column ["x", "Subcategory"] = some ("Subcategory") := by
  refine ⟨(get_category_column_spec ["Category", "x"]).1 (by decide),
          (get_category_column_spec ["x", "category"]).2.1 (by decide) (by decide),
          ?_⟩
  have h := (get_category_column_spec ["x", "Subcategory"]).2.2 (by decide) (by decide)
  rw [h]; decide

/-- C4: the classification maps every C1..C8 category to
`"Climate assessed (C1-C8)"`, every non-C1..C8 category whose lowercase
form contains `"failed"` to `"Failed vetting"`, and a missing (NaN)
category to `"No assessment"`. -/
theorem get_assessment_status_spec (c : String) :
    (c ∈ (["C1", "C2", "C3", "C4", "C5", "C6", "C7", "C8"] : List String) →
      get_assessment_status (some c) = "Climate assessed (C1-C8)")
    ∧ (c ∉ (["C1", "C2", "C3", "C4", "C5", "C6", "C7", "C8"] : List String) →
        containsSub ("failed").toList (lowerStr c.toList) = true →
        get_assessment_status (some c) = "Failed vetting")
    ∧ get_assessment_status none = "No assessment" := by
  refine ⟨fun h1 => ?_, fun h1 h2 => ?_, rfl⟩
  · show (if c ∈ (["C1", "C2", "C3", "C4", "C5", "C6", "C7", "C8"] : List String) then
        "Climate assessed (C1-C8)"
      else if containsSub ("failed").toList (lowerStr c.toList)
           || containsSub ("exclude").toList (lowerStr c.toList) then
        "Failed vetting"
      else "No assessment") = "Climate assessed (C1-C8)"
    rw [if_pos h1]
  · show (if c ∈ (["C1", "C2", "C3", "C4", "C5", "C6", "C7", "C8"] : List String) then
        "Climate assessed (C1-C8)"
      else if containsSub ("failed").toList (lowerStr c.toList)
           || containsSub ("exclude").toList (lowerStr c.toList) then
        "Failed vetting"
      else "No assessment") = "Failed vetting"
    have hc : (containsSub ("failed").toList (lowerStr c.toList)
        || containsSub ("exclude").toList (lowerStr c.toList)) = true := by
      rw [h2]; rfl
    rw [if_neg h1, if_pos hc]

/-- Witness for C4: category `"C3"` is assessed, a category reading
`"failed vetting"` fails vetting, a missing category gets no assessment. -/
theorem get_assessment_status_spec_witness :
    get_assessment_status (some ("C3")) = "Climate assessed (C1-C8)"
    ∧ get_assessment_status (some ("failed vetting")) = "Failed vetting"
    ∧ get_assessment_status none = "No assessment" :=
  ⟨(get_assessment_status_spec "C3").1 (by decide),
   (get_assessment_status_spec "failed vetting").2.1 (by decide) (by decide),
   (get_assessment_status_spec "x").2.2⟩

/-! ### Time-series tables (`pyam` `timeseries()` output)

A `timeseries()` DataFrame is indexed by `(model, scenario, region,
variable, unit)` and has one column per year.  Only the first two index
levels are inspected by the toolkit, so a row carries them together with
its year-indexed cells (`none` = NaN). -/

structure TSRow where
  model : String
  scen : String
  vals : Int → Option ℚ

structure TS where
  years : List Int
  rows : List TSRow

/-- The `(model, scenario)` key of a row (`idx[0], idx[1]`). -/
def keyOf (r : TSRow) : String × String := (r.model, r.scen)

/-- `sorted(set(ts_num.columns) & set(ts_den.columns))`: the sorted
intersection of two year sets. -/
def commonYears (a b : List Int) : List Int :=
  List.insertionSort (fun x y => x ≤ y) ((a.filter (fun y => y ∈ b)).dedup)

/-- numpy elementwise division on possibly-NaN cells.  `none` stands for
NaN; a zero denominator yields ±Inf or NaN and a NaN operand yields NaN,
all of which the toolkit's mask `~np.isnan(ratio) & ~np.isinf(ratio)`
removes, so they are all collapsed to `none` here. -/
def npDiv (a b : Option ℚ) : Option ℚ :=
  match a, b with
  | some x, some y => if y = 0 then none else some (x / y)
  | _, _ => none

/-- The `den_lookup` dict built by `plot_kaya_ratio`: later rows with the
same `(model, scenario)` key overwrite earlier ones. -/
def denLookup (rows : List TSRow) (key : String × String) : Option TSRow :=
  (rows.filter (fun r => keyOf r = key)).getLast?

/-- `ratio = ts_num.loc[idx_num].values / ts_den.loc[idx_den].values`
over the common years. -/
def codeRatio (rn rd : TSRow) (cys : List Int) : List (Option ℚ) :=
  cys.map (fun y => npDiv (rn.vals y) (rd.vals y))

/-- `years[mask], ratio[mask]`: the plotted `(year, value)` pairs after
masking out NaN/Inf positions. -/
def maskedSeries (cys : List Int) (ratio : List (Option ℚ)) : List (Int × ℚ) :=
  (cys.zip ratio).filterMap (fun p => p.2.map (fun v => (p.1, v)))

/-- The category-colored lines drawn by `plot_kaya_ratio` (the same
alignment logic appears verbatim in `plot_kaya_ratios`): for each
numerator row, look up the denominator row by `(model, scenario)` key
(dropping the row if absent), resolve and filter the category (a failed
metadata lookup, a NaN category, a category outside `cats_to_plot`, or a
`CATEGORY_COLORS` KeyError are all swallowed by `continue` / the bare
`except`), divide over the common years, mask, and skip empty masks. -/
def plot_kaya_ratio_lines (tsN tsD : TS) (metaL : String → String → Option String)
    (cats : List String) : List ((String × String) × String × List (Int × ℚ)) :=
  let cys := commonYears tsN.years tsD.years
  tsN.rows.filterMap (fun rn =>
    match denLookup tsD.rows (keyOf rn) with
    | none => none
    | some rd =>
      match metaL rn.model rn.scen with
      | none => none
      | some cat =>
        if cat ∈ cats then
          match lookupCategoryColor cat with
          | none => none
          | some col =>
            let s := maskedSeries cys (codeRatio rn rd cys)
            if s.isEmpty then none else some (keyOf rn, col, s)
        else none)

/-- The ratio series as the specification words it: elementwise division
of the numerator's values by the denominator's values, restricted to the
sorted intersection of the two year sets, with positions where either
side is undefined or the denominator is zero left out. -/
def specRatioSeries (nv dv : Int → Option ℚ) (ys1 ys2 : List Int) : List (Int × ℚ) :=
  (commonYears ys1 ys2).filterMap (fun y =>
    match nv y, dv y with
    | some a, some b => if b = 0 then none else some (y, a / b)
    | _, _ => none)

theorem maskedSeries_codeRatio (rn rd : TSRow) (cys : List Int) :
    maskedSeries cys (codeRatio rn rd cys) =
      cys.filterMap (fun y =>
        match rn.vals y, rd.vals y with
        | some a, some b => if b = 0 then none else some (y, a / b)
        | _, _ => none) := by
  induction cys with
  | nil => rfl
  | cons y ys ih =>
    simp only [maskedSeries, codeRatio, List.map_cons, List.zip_cons_cons,
      List.filterMap_cons] at ih ⊢
    cases hn : rn.vals y with
    | none => simpa [npDiv, hn] using ih
    | some a =>
      cases hd : rd.vals y with
      | none => simpa [npDiv, hn, hd] using ih
      | some b =>
        by_cases hb : b = 0
        · simpa [npDiv, hn, hd, hb] using ih
        · simpa [npDiv, hn, hd, hb] using ih

/-- C1: every line plotted by the Kaya-ratio plotters belongs to a
`(model, scenario)` pair present in both variables (pairs present in only
one are dropped), and its point sequence is exactly the elementwise
division of the numerator row by the matched denominator row over the
sorted intersection of the year sets, with every position where the
division yields NaN or Inf (missing operand or zero denominator) masked
out: a masked position never appears, and every well-defined position
does appear with value numerator/denominator. -/
theorem plot_kaya_ratio_spec (tsN tsD : TS) (metaL : String → String → Option String)
    (cats : List String) (key : String × String) (col : String) (pts : List (Int × ℚ))
    (hmem : (key, col, pts) ∈ plot_kaya_ratio_lines tsN tsD metaL cats) :
    (key ∈ tsN.rows.map keyOf ∧ key ∈ tsD.rows.map keyOf)
    ∧ ∃ rn rd, rn ∈ tsN.rows ∧ keyOf rn = key
        ∧ denLookup tsD.rows key = some rd
        ∧ pts = specRatioSeries rn.vals rd.vals tsN.years tsD.years
        ∧ (∀ y v, (y, v) ∈ pts →
            y ∈ commonYears tsN.years tsD.years
            ∧ ∃ a b, rn.vals y = some a ∧ rd.vals y = some b ∧ b ≠ 0 ∧ v = a / b)
        ∧ (∀ y a b, y ∈ commonYears tsN.years tsD.years →
            rn.vals y = some a → rd.vals y = some b → b ≠ 0 → (y, a / b) ∈ pts) := by
  simp only [plot_kaya_ratio_lines, List.mem_filterMap] at hmem
  obtain ⟨rn, hrn, hf⟩ := hmem
  cases hden : denLookup tsD.rows (keyOf rn) with
  | none => simp [hden] at hf
  | some rd =>
  simp only [hden] at hf
  cases hcat : metaL rn.model rn.scen with
  | none => simp [hcat] at hf
  | some cat =>
  simp only [hcat] at hf
  by_cases hin : cat ∈ cats
  · rw [if_pos hin] at hf
    cases hcol : lookupCategoryColor cat with
    | none => simp [hcol] at hf
    | some c =>
    simp only [hcol] at hf
    by_cases hemp : (maskedSeries (commonYears tsN.years tsD.years)
        (codeRatio rn rd (commonYears tsN.years tsD.years))).isEmpty
    · rw [if_pos hemp] at hf; exact absurd hf (by simp)
    · rw [if_neg hemp] at hf
      simp only [Option.some.injEq, Prod.mk.injEq] at hf
      obtain ⟨hkey, -, hpts⟩ := hf
      have hspec : pts = specRatioSeries rn.vals rd.vals tsN.years tsD.years := by
        rw [← hpts, maskedSeries_codeRatio]; rfl
      refine ⟨⟨List.mem_map.mpr ⟨rn, hrn, hkey⟩, ?_⟩, rn, rd, hrn, hkey,
        hkey ▸ hden, hspec, ?_, ?_⟩
      · have hrdmem := List.mem_of_mem_getLast? hden
        have hrd2 := List.mem_filter.mp hrdmem
        refine List.mem_map.mpr ⟨rd, hrd2.1, ?_⟩
        have := of_decide_eq_true hrd2.2
        rw [this, hkey]
      · intro y v hyv
        rw [hspec] at hyv
        simp only [specRatioSeries, List.mem_filterMap] at hyv
        obtain ⟨y', hy', hg⟩ := hyv
        cases hn : rn.vals y' with
        | none => rw [hn] at hg; exact absurd hg (by simp)
        | some a =>
        cases hd : rd.vals y' with
        | none => rw [hn, hd] at hg; exact absurd hg (by simp)
        | some b =>
        rw [hn, hd] at hg
        by_cases hb : b = 0
        · simp [hb] at hg
        · simp [hb] at hg
          obtain ⟨hy0, hv0⟩ := hg
          subst hy0
          exact ⟨hy', a, b, hn, hd, hb, hv0.symm⟩
      · intro y a b hy ha hb hb0
        rw [hspec]
        simp only [specRatioSeries, List.mem_filterMap]
        exact ⟨y, hy, by rw [ha, hb]; simp [hb0]⟩
  · rw [if_neg hin] at hf; exact absurd hf (by simp)

/-! ### Illustrative Mitigation Pathways (IMPs) -/

/-- `IMP_SCENARIOS`: IMP short name → scenario name in the database. -/
def IMP_SCENARIOS : List (String × String) :=
  [("CurPol", "NGFS2_Current Policies"),
   ("ModAct", "EN_INDCi2030_3000f"),
   ("Neg", "EN_NPi2020_400f_lowBECCS"),
   ("Ren", "DeepElec_SSP2_ HighRE_Budg900"),
   ("LD", "LowEnergyDemand_1.3_IPCC"),
   ("GS", "CO_Bridge"),
   ("SP", "SusDev_SDP-PkBudg1000")]

/-- `IMP_DETAILS`: IMP short name → (model name, color). -/
def IMP_DETAILS : List (String × String × String) :=
  [("CurPol", "GCAM 5.3", "#E31F2B"),
   ("ModAct", "IMAGE 3.0", "#F29424"),
   ("Neg", "COFFEE 1.1", "#84A12B"),
   ("Ren", "REMIND-MAgPIE 2.1-4.3", "#2B7C8B"),
   ("LD", "MESSAGEix-GLOBIOM 1.0", "#4FA7BF"),
   ("GS", "WITCH 5.0", "#6E7895"),
   ("SP", "REMIND-MAgPIE 2.1-4.2", "#004D52")]

/-- `IMP_DETAILS[imp_name]`. -/
def lookupImpDetail (n : String) : Option (String × String) :=
  (IMP_DETAILS.find? (fun d => d.1 = n)).map Prod.snd

/-- A rendered line with the attributes the claims talk about:
`path_effects=IMP_PATH_EFFECT` becomes the `outlined` flag. -/
structure Line where
  color : String
  zorder : Nat
  outlined : Bool
  pts : List (Int × ℚ)

/-- `mask = ~np.isnan(values)`; `mask.sum() > 0`. -/
def hasNonNaN (r : TSRow) (ys : List Int) : Bool :=
  ys.any (fun y => (r.vals y).isSome)

/-- `years[mask], values[mask]` for a single-variable row. -/
def maskedPts (r : TSRow) (ys : List Int) : List (Int × ℚ) :=
  ys.filterMap (fun y => (r.vals y).map (fun v => (y, v)))

/-- The IMP overlay of `plot_timeseries_by_category` (`show_imps=True`):
for each IMP, scan `df_ts.index` for the row matching the IMP's
`(model_name, scenario_name)` with a nonempty NaN-mask (an all-NaN match
is skipped by `continue`) and draw it with the IMP's own color,
`zorder=10` and the black-outline path effect.  The `categories`
argument is received but never consulted by this loop, exactly as in the
source. -/
def impLinesTimeseries (ts : TS) (cats : List String) : List (String × Line) :=
  let ys := List.insertionSort (fun x y => x ≤ y) ts.years
  IMP_SCENARIOS.filterMap (fun p =>
    match lookupImpDetail p.1 with
    | none => none
    | some d =>
      match (ts.rows.filter (fun r => r.model = d.1 ∧ r.scen = p.2 ∧ hasNonNaN r ys)).head? with
      | none => none
      | some r => some (p.1, ⟨d.2, 10, true, maskedPts r ys⟩))

/-- The IMP overlay of `plot_scatter_boxplot_by_category`
(`show_imps=True`): only the first row matching the IMP's key is
considered (the loop `break`s after it); the IMP is drawn only when its
metadata category resolves, is not NaN, and is in `cats_to_plot`, and its
value at `year` is not NaN.  The drawn marker sits at
`cats_to_plot.index(imp_category)` with the IMP color. -/
def impPointsScatter (ts : TS) (metaL : String → String → Option String)
    (cats : List String) (year : Int) : List (String × Nat × ℚ × String) :=
  IMP_SCENARIOS.filterMap (fun p =>
    match lookupImpDetail p.1 with
    | none => none
    | some d =>
      match (ts.rows.filter (fun r => r.model = d.1 ∧ r.scen = p.2)).head? with
      | none => none
      | some r =>
        match metaL d.1 p.2 with
        | none => none
        | some cat =>
          if cat ∈ cats then
            match r.vals year with
            | none => none
            | some v => some (p.1, cats.indexOf cat, v, d.2)
          else none)

/-! ### Category-colored layers (C7) -/

/-- The category-colored lines of `plot_timeseries_by_category`: a row is
drawn iff its metadata category resolves (a lookup failure is swallowed
by the bare `except`), is not NaN, is a `CATEGORY_COLORS` key, is in
`cats_to_plot`, and the row has at least one non-NaN value. -/
def timeseriesCategoryLines (ts : TS) (metaL : String → String → Option String)
    (cats : List String) : List ((String × String) × String) :=
  let ys := List.insertionSort (fun x y => x ≤ y) ts.years
  ts.rows.filterMap (fun r =>
    match metaL r.model r.scen with
    | none => none
    | some cat =>
      if categoryHasColor cat then
        if cat ∈ cats then
          match lookupCategoryColor cat with
          | none => none
          | some col => if hasNonNaN r ys then some (keyOf r, col) else none
        else none
      else none)

/-- The `data_by_category` buckets of `plot_scatter_boxplot_by_category`:
one bucket per entry of `cats_to_plot`; a row's value at `year` lands in
bucket `category` iff it is non-NaN and the category resolves and is in
`cats_to_plot`.  The `(model, scenario)` key is carried alongside each
value as ghost provenance (the source appends the bare value). -/
def data_by_category (ts : TS) (metaL : String → String → Option String)
    (cats : List String) (year : Int) :
    List (String × List ((String × String) × ℚ)) :=
  cats.map (fun c => (c, ts.rows.filterMap (fun r =>
    match r.vals year with
    | none => none
    | some v =>
      match metaL r.model r.scen with
      | none => none
      | some cat => if cat ∈ cats ∧ cat = c then some (keyOf r, v) else none)))

/-- The scatter-point construction loop of
`plot_scatter_boxplot_by_category`: walk the buckets in position order;
a nonempty bucket contributes one point per value, colored
`CATEGORY_COLORS[cat]` — a missing key raises `KeyError`, modelled as
`Except.error`. -/
def buildScatterPts : Nat → List (String × List ((String × String) × ℚ)) →
    Except Unit (List (Nat × ((String × String) × ℚ) × String))
  | _, [] => .ok []
  | i, (c, vs) :: rest =>
    if vs.isEmpty then buildScatterPts (i + 1) rest
    else
      match lookupCategoryColor c with
      | none => .error ()
      | some col =>
        match buildScatterPts (i + 1) rest with
        | .error e => .error e
        | .ok tail => .ok (vs.map (fun kv => (i, kv, col)) ++ tail)

/-- The category-colored scatter layer of
`plot_scatter_boxplot_by_category`. -/
def plot_scatter_points (ts : TS) (metaL : String → String → Option String)
    (cats : List String) (year : Int) :
    Except Unit (List (Nat × ((String × String) × ℚ) × String)) :=
  buildScatterPts 0 (data_by_category ts metaL cats year)

/-- The keys of `CATEGORY_COLORS` are exactly the eight fixed labels. -/
theorem categoryHasColor_iff (c : String) :
    categoryHasColor c = true ↔ c ∈ ALL_CATEGORIES := by
  rw [categoryHasColor,
    show CATEGORY_COLORS.map Prod.fst = ALL_CATEGORIES from rfl]
  exact List.elem_iff

/-- A successful `CATEGORY_COLORS[c]` lookup implies `c` is one of the
eight labels. -/
theorem lookupCategoryColor_mem {c col : String}
    (h : lookupCategoryColor c = some col) : c ∈ ALL_CATEGORIES := by
  rw [lookupCategoryColor] at h
  cases hf : CATEGORY_COLORS.find? (fun p => p.1 = c) with
  | none => rw [hf] at h; exact absurd h (by simp)
  | some p =>
    have hp := List.mem_of_find?_eq_some hf
    have hpc := List.find?_some hf
    rw [decide_eq_true_eq] at hpc
    have : p.1 ∈ CATEGORY_COLORS.map Prod.fst := List.mem_map.mpr ⟨p, hp, rfl⟩
    rw [hpc, show CATEGORY_COLORS.map Prod.fst = ALL_CATEGORIES from rfl] at this
    exact this

/-- Concrete data holding the IMP-CurPol row, used to exercise the IMP
overlays. -/
def cexRow : TSRow :=
  ⟨"GCAM 5.3", "NGFS2_Current Policies", fun y => if y = 2050 then some 5 else none⟩

def cexTS : TS := ⟨[2050], [cexRow]⟩

/-- Metadata assigning category C8 to the CurPol IMP. -/
def cexMetaL : String → String → Option String :=
  fun m s =>
    if m = "GCAM 5.3" ∧ s = "NGFS2_Current Policies" then some ("C8") else none

/-- C2 counterexample: in `plot_scatter_boxplot_by_category`, the CurPol
IMP is present in the data with a non-NaN value at the plotted year and
carries category C8, yet with `categories=['C1']` it is NOT drawn — the
IMP overlay of the scatter/boxplot plot does depend on the category
filter, contradicting the claim that an IMP whose category is not in the
`categories` argument is still drawn. -/
theorem imp_scatter_depends_on_categories :
    (("GCAM 5.3", "NGFS2_Current Policies") ∈ cexTS.rows.map keyOf)
    ∧ cexMetaL "GCAM 5.3" "NGFS2_Current Policies" = some ("C8")
    ∧ cexRow.vals 2050 = some 5
    ∧ ("C8" : String) ∉ (["C1"] : List String)
    ∧ impPointsScatter cexTS cexMetaL ["C1"] 2050 = [] := by
  refine ⟨by decide, by decide, by decide, by decide, by decide⟩

/-- C2 (amended): in `plot_timeseries_by_category` the IMP overlay is
independent of the `categories` argument and always renders with the
IMP's fixed color, `zorder=10` and the outline path effect; in
`plot_scatter_boxplot_by_category`, however, an IMP is only drawn when
its metadata category resolves and lies in the categories being
plotted. -/
theorem imp_overlay_spec (ts : TS) (cats cats' : List String)
    (metaL : String → String → Option String) (year : Int) :
    impLinesTimeseries ts cats = impLinesTimeseries ts cats'
    ∧ (∀ p ∈ impLinesTimeseries ts cats,
        p.2.zorder = 10 ∧ p.2.outlined = true
        ∧ ∃ d, lookupImpDetail p.1 = some d ∧ p.2.color = d.2)
    ∧ (∀ q ∈ impPointsScatter ts metaL cats year,
        ∃ p d, p ∈ IMP_SCENARIOS ∧ p.1 = q.1 ∧ lookupImpDetail p.1 = some d
          ∧ ∃ c, metaL d.1 p.2 = some c ∧ c ∈ cats) := by
  refine ⟨rfl, ?_, ?_⟩
  · intro p hp
    rw [impLinesTimeseries, List.mem_filterMap] at hp
    obtain ⟨q, hq, hf⟩ := hp
    split at hf
    · exact Option.noConfusion hf
    · rename_i d hd
      split at hf
      · exact Option.noConfusion hf
      · rename_i r hr
        cases Option.some.inj hf
        exact ⟨rfl, rfl, d, hd, rfl⟩
  · intro q hq
    rw [impPointsScatter, List.mem_filterMap] at hq
    obtain ⟨p, hp, hf⟩ := hq
    split at hf
    · exact Option.noConfusion hf
    · rename_i d hd
      split at hf
      · exact Option.noConfusion hf
      · rename_i r hr
        split at hf
        · exact Option.noConfusion hf
        · rename_i cat hc
          split at hf
          · rename_i hin
            split at hf
            · exact Option.noConfusion hf
            · rename_i v hv
              cases Option.some.inj hf
              exact ⟨p, d, hp, rfl, hd, cat, hc, hin⟩
          · exact Option.noConfusion hf

/-- Witness for C2 (amended), instantiated at the concrete CurPol data:
the CurPol IMP line in the timeseries overlay has `zorder=10`, an
outline, and the fixed CurPol color, and the overlay is unchanged when
the category filter changes. -/
theorem imp_overlay_spec_witness :
    impLinesTimeseries cexTS ["C1"] = impLinesTimeseries cexTS ["C4"]
    ∧ (("CurPol", (⟨"#E31F2B", 10, true, [(2050, 5)]⟩ : Line)).2.zorder = 10
        ∧ ("CurPol", (⟨"#E31F2B", 10, true, [(2050, 5)]⟩ : Line)).2.outlined = true
        ∧ ∃ d, lookupImpDetail ("CurPol", (⟨"#E31F2B", 10, true, [(2050, 5)]⟩ : Line)).1 = some d
            ∧ ("CurPol", (⟨"#E31F2B", 10, true, [(2050, 5)]⟩ : Line)).2.color = d.2) :=
  ⟨(imp_overlay_spec cexTS ["C1"] ["C4"] cexMetaL 2050).1,
   (imp_overlay_spec cexTS ["C1"] ["C4"] cexMetaL 2050).2.1
     ("CurPol", (⟨"#E31F2B", 10, true, [(2050, 5)]⟩ : Line))
     (by rw [show impLinesTimeseries cexTS ["C1"] =
           [("CurPol", (⟨"#E31F2B", 10, true, [(2050, 5)]⟩ : Line))] from rfl]
         exact List.mem_singleton.mpr rfl)⟩

/-- Every point emitted by the scatter-point loop comes from some bucket,
with the bucket's `CATEGORY_COLORS` lookup succeeding. -/
theorem buildScatterPts_mem (bs : List (String × List ((String × String) × ℚ)))
    (i : Nat) (pts : List (Nat × ((String × String) × ℚ) × String))
    (h : buildScatterPts i bs = Except.ok pts) :
    ∀ q ∈ pts, ∃ c vs, (c, vs) ∈ bs ∧ q.2.1 ∈ vs
      ∧ lookupCategoryColor c = some q.2.2 := by
  induction bs generalizing i pts with
  | nil =>
    rw [buildScatterPts] at h
    cases Except.ok.inj h
    intro q hq
    exact absurd hq (by simp)
  | cons b rest ih =>
    obtain ⟨c, vs⟩ := b
    rw [buildScatterPts] at h
    split at h
    · intro q hq
      obtain ⟨c', vs', hmem, hqv, hcol⟩ := ih (i + 1) pts h q hq
      exact ⟨c', vs', List.mem_cons_of_mem _ hmem, hqv, hcol⟩
    · split at h
      · exact Except.noConfusion h
      · rename_i col hcol
        split at h
        · exact Except.noConfusion h
        · rename_i tail htail
          cases Except.ok.inj h
          intro q hq
          rcases List.mem_append.mp hq with hq1 | hq2
          · obtain ⟨kv, hkv, hqe⟩ := List.mem_map.mp hq1
            refine ⟨c, vs, List.mem_cons_self _ _, ?_, ?_⟩
            · rw [← hqe]; exact hkv
            · rw [← hqe]; exact hcol
          · obtain ⟨c', vs', hmem, hqv, hcol'⟩ := ih (i + 1) tail htail q hq2
            exact ⟨c', vs', List.mem_cons_of_mem _ hmem, hqv, hcol'⟩

/-- C7: a scenario whose metadata category is missing, NaN, or not one of
the eight fixed labels C1..C8 is excluded from the category-colored
output of both `plot_timeseries_by_category` (no line with its key) and
`plot_scatter_boxplot_by_category` (no scatter point for it in any
successfully drawn point set). -/
theorem category_colored_exclusion (ts : TS) (metaL : String → String → Option String)
    (cats : List String) (year : Int) (m s : String)
    (hbad : ∀ c, metaL m s = some c → c ∉ ALL_CATEGORIES) :
    (m, s) ∉ (timeseriesCategoryLines ts metaL cats).map Prod.fst
    ∧ ∀ pts, plot_scatter_points ts metaL cats year = Except.ok pts →
        ∀ q ∈ pts, q.2.1.1 ≠ (m, s) := by
  constructor
  · intro hmem
    rw [List.mem_map] at hmem
    obtain ⟨e, he, hfst⟩ := hmem
    rw [timeseriesCategoryLines, List.mem_filterMap] at he
    obtain ⟨r, hr, hf⟩ := he
    split at hf
    · exact Option.noConfusion hf
    · rename_i cat hcat
      split at hf
      · rename_i hcolor
        split at hf
        · split at hf
          · exact Option.noConfusion hf
          · rename_i col hcol
            split at hf
            · cases Option.some.inj hf
              have hkey : keyOf r = (m, s) := hfst
              have hm : r.model = m := congrArg Prod.fst hkey
              have hs : r.scen = s := congrArg Prod.snd hkey
              rw [hm, hs] at hcat
              exact hbad cat hcat ((categoryHasColor_iff cat).mp hcolor)
            · exact Option.noConfusion hf
        · exact Option.noConfusion hf
      · exact Option.noConfusion hf
  · intro pts hok q hq hqkey
    obtain ⟨c, vs, hbs, hqv, hcol⟩ := buildScatterPts_mem _ 0 pts hok q hq
    rw [data_by_category, List.mem_map] at hbs
    obtain ⟨c0, hc0, hpair⟩ := hbs
    injection hpair with h1 h2
    subst h1
    rw [← h2, List.mem_filterMap] at hqv
    obtain ⟨r, hr, hf⟩ := hqv
    split at hf
    · exact Option.noConfusion hf
    · rename_i v hv
      split at hf
      · exact Option.noConfusion hf
      · rename_i cat hcat
        split at hf
        · rename_i hcond
          have he := Option.some.inj hf
          have hkey : keyOf r = (m, s) := (congrArg Prod.fst he).trans hqkey
          have hm : r.model = m := congrArg Prod.fst hkey
          have hs : r.scen = s := congrArg Prod.snd hkey
          rw [hm, hs] at hcat
          have hc8 : c0 ∈ ALL_CATEGORIES := lookupCategoryColor_mem hcol
          rw [← hcond.2] at hc8
          exact hbad cat hcat hc8
        · exact Option.noConfusion hf

/-- Metadata in which every scenario carries the non-C1..C8 category
label `"D1"`. -/
def badMetaL : String → String → Option String := fun _ _ => some ("D1")

/-- Witness for C7: with category `"D1"` (not one of C1..C8), the
concrete scenario draws no category-colored line and no scatter point. -/
theorem category_colored_exclusion_witness :
    ("GCAM 5.3", "NGFS2_Current Policies")
      ∉ (timeseriesCategoryLines cexTS badMetaL ALL_CATEGORIES).map Prod.fst :=
  (category_colored_exclusion cexTS badMetaL ALL_CATEGORIES 2050
    "GCAM 5.3" "NGFS2_Current Policies"
    (fun c hc => (Option.some.inj hc) ▸
      (by decide : ("D1" : String) ∉ ALL_CATEGORIES))).1

/-- Concrete one-row numerator/denominator tables exercising the Kaya
ratio plotter. -/
def wRowN : TSRow := ⟨"M1", "S1", fun y => if y = 2020 then some 4 else none⟩

def wRowD : TSRow := ⟨"M1", "S1", fun y => if y = 2020 then some 2 else none⟩

def wTsN : TS := ⟨[2020], [wRowN]⟩

def wTsD : TS := ⟨[2020], [wRowD]⟩

def wMetaL : String → String → Option String :=
  fun m s => if m = "M1" ∧ s = "S1" then some ("C1") else none

/-- Witness for C1 at a concrete plotted line: the key is present in both
variables. -/
theorem plot_kaya_ratio_spec_witness :
    ("M1", "S1") ∈ wTsN.rows.map keyOf ∧ ("M1", "S1") ∈ wTsD.rows.map keyOf :=
  (plot_kaya_ratio_spec wTsN wTsD wMetaL ["C1"] ("M1", "S1") "#97CEE4"
    [((2020 : Int), (4 : ℚ) / 2)]
    (by rw [show plot_kaya_ratio_lines wTsN wTsD wMetaL ["C1"] =
          [(("M1", "S1"), "#97CEE4", [((2020 : Int), (4 : ℚ) / 2)])] from rfl]
        exact List.mem_singleton.mpr rfl)).1

/-! ### `assign_model_families` -/

/-- `MODEL_FAMILIES`: known model families for normalization. -/
def MODEL_FAMILIES : List String :=
  ["MESSAGE", "REMIND", "AIM", "GCAM", "TIAM", "WITCH", "IMAGE", "POLES", "GEM-E3"]

/-- Consume one or more digits (regex `\d+`), returning the rest. -/
def chompDigits1 (l : List Char) : Option (List Char) :=
  if (l.takeWhile Char.isDigit).isEmpty then none
  else some (l.dropWhile Char.isDigit)

/-- Consume an optional fractional part (regex `(\.\d+)?`).  If the
input starts with '.', digits must follow: when they do not, no
alternative of the end-anchored pattern can match from here, since only
'-', a digit, or the end may come next, so the whole match fails. -/
def chompOptFrac (l : List Char) : Option (List Char) :=
  match l with
  | '.' :: rest => chompDigits1 rest
  | _ => some l

/-- Membership in the language `\d+(\.\d+)?(-\d+(\.\d+)?)?` consuming the
whole input.  Greedy deterministic parsing agrees with the backtracking
regex here because after a maximal digit run the next character decides
uniquely which alternative can still reach the `$` anchor. -/
def isVersionBody (l : List Char) : Bool :=
  match chompDigits1 l with
  | none => false
  | some r1 =>
    match chompOptFrac r1 with
    | none => false
    | some r2 =>
      match r2 with
      | [] => true
      | '-' :: rest =>
        match chompDigits1 rest with
        | none => false
        | some r3 =>
          match chompOptFrac r3 with
          | none => false
          | some r4 => r4.isEmpty
      | _ => false

/-- Does the suffix `l` match `\s*\d+(\.\d+)?(-\d+(\.\d+)?)?$`? -/
def isVersionSuffix (l : List Char) : Bool :=
  isVersionBody (l.dropWhile isPyWhitespace)

/-- `re.sub(r'\s*\d+(\.\d+)?(-\d+(\.\d+)?)?$', '', model_name)`: remove
the leftmost end-anchored version suffix, if any (the pattern needs at
least one digit, so the empty string never matches). -/
def subVersion : List Char → List Char
  | [] => []
  | c :: rest => if isVersionSuffix (c :: rest) then [] else c :: subVersion rest

/-- `_extract_model_family(model_name)`: strip the trailing version
suffix, strip whitespace, then snap to the first known family whose
dash-free form occurs in the dash-free uppercased name. -/
def extract_model_family (name : String) : String :=
  let family := stripWS (subVersion name.toList)
  let modelUpper := removeDashes (upperStr family)
  match MODEL_FAMILIES.find? (fun k => containsSub (removeDashes k.toList) modelUpper) with
  | some k => k
  | none => String.mk family

/-- The `Model_Family` column computed by `assign_model_families`:
normalize each model name, then relabel the families whose
`value_counts()` entry is below `min_scenarios` as `"Other"`. -/
def modelFamilyColumn (models : List String) (min_scenarios : Nat) : List String :=
  let fams := models.map extract_model_family
  fams.map (fun f => if fams.countP (fun g => g = f) < min_scenarios then "Other" else f)

/-- C3: `"REMIND-MAgPIE 2.1-4.3"` normalizes to family `"REMIND"`, and in
`assign_model_families` every row whose family has strictly fewer than
`min_scenarios` occurrences is relabelled `"Other"` in the
`Model_Family` column. -/
theorem assign_model_families_spec :
    extract_model_family "REMIND-MAgPIE 2.1-4.3" = "REMIND"
    ∧ ∀ (models : List String) (min_scenarios i : Nat) (f : String),
        (models.map extract_model_family)[i]? = some f →
        (models.map extract_model_family).countP (fun g => g = f) < min_scenarios →
        (modelFamilyColumn models min_scenarios)[i]? = some ("Other") := by
  refine ⟨by decide, ?_⟩
  intro models min_scenarios i f hf hcount
  simp only [modelFamilyColumn, List.getElem?_map] at hf ⊢
  cases hm : models[i]? with
  | none => rw [hm] at hf; exact absurd hf (by simp)
  | some mname =>
    rw [hm] at hf
    have hfeq : extract_model_family mname = f := Option.some.inj hf
    simp only [Option.map_some', Option.some.injEq, hfeq]
    rw [if_pos hcount]

/-- Witness for C3: a table with the single model
`"REMIND-MAgPIE 2.1-4.3"` has family count 1 < 50, so the row is
relabelled `"Other"`. -/
theorem assign_model_families_spec_witness :
    (modelFamilyColumn ["REMIND-MAgPIE 2.1-4.3"] 50)[0]? = some ("Other") :=
  assign_model_families_spec.2 ["REMIND-MAgPIE 2.1-4.3"] 50 0 "REMIND"
    (by decide) (by decide)

/-! ### Metadata tables

`df_pyam.meta` is a DataFrame indexed by `(model, scenario)`; a cell
holds `none` for NaN / missing. -/

structure MetaRow where
  model : String
  scen : String
  cell : String → Option String

structure MetaTable where
  cols : List String
  mrows : List MetaRow

instance : Inhabited MetaRow := ⟨⟨"", "", fun _ => none⟩⟩

instance : Inhabited MetaTable := ⟨⟨[], []⟩⟩

/-- pandas column assignment `meta[c] = ...` adds the column name only
when absent. -/
def addColName (cols : List String) (c : String) : List String :=
  if c ∈ cols then cols else cols ++ [c]

/-- `assign_assessment_status(meta)` at the value level: `meta.copy()`,
resolve the category column, apply `_get_assessment_status` to it.  When
the metadata has no category column, `cat_col` is `None` and the read
`meta_enriched[None]` raises a `KeyError` that the function does not
catch — modelled as `Except.error`. -/
def assign_assessment_status_table (t : MetaTable) : Except String MetaTable :=
  match get_category_column t.cols with
  | none => Except.error "KeyError"
  | some c =>
    Except.ok ⟨addColName t.cols "Assessment_Status",
      t.mrows.map (fun r =>
        { r with cell := fun col =>
            if col = "Assessment_Status" then
              some (get_assessment_status (r.cell c))
            else r.cell col })⟩

/-- The early-return behaviour of the plotting entry points. -/
inductive PlotOutcome where
  | warnNoCategoryColumn
  | warnNoYear
  | noData
  | rendered
deriving DecidableEq

/-- `plot_timeseries_by_category` control flow: with no category column it
prints a warning and returns the empty axes early. -/
def plot_timeseries_by_category_outcome (metaCols : List String) : PlotOutcome :=
  match get_category_column metaCols with
  | none => PlotOutcome.warnNoCategoryColumn
  | some _ => PlotOutcome.rendered

/-- `plot_scatter_boxplot_by_category` control flow: warning and early
return when there is no category column, or when the requested year is
not among the data's columns. -/
def plot_scatter_boxplot_by_category_outcome (metaCols : List String)
    (yearInColumns : Bool) : PlotOutcome :=
  match get_category_column metaCols with
  | none => PlotOutcome.warnNoCategoryColumn
  | some _ =>
    if yearInColumns then PlotOutcome.rendered else PlotOutcome.warnNoYear

/-- `plot_kaya_variable` control flow: the category column is resolved
but never checked against `None`; the only early return is the
`(no data)` annotation when the variable filter is empty.  A missing
category column merely makes every per-row metadata lookup raise inside
the `try`, silently skipping the category-colored lines. -/
def plot_kaya_variable_outcome (metaCols : List String) (dataEmpty : Bool) :
    PlotOutcome :=
  if dataEmpty then PlotOutcome.noData else PlotOutcome.rendered

/-- C6 counterexample: on metadata with no category column,
`plot_kaya_variable` (with data present) neither warns nor returns early
— it renders, skipping category lines — and `assign_assessment_status`
propagates a KeyError instead of degrading gracefully. -/
theorem no_category_column_counterexample :
    get_category_column ["foo"] = none
    ∧ plot_kaya_variable_outcome ["foo"] false = PlotOutcome.rendered
    ∧ ∃ e, assign_assessment_status_table ⟨["foo"], []⟩ = Except.error e :=
  ⟨by decide, rfl, "KeyError", rfl⟩

/-- C6 (amended): when the metadata table has no category column,
`plot_timeseries_by_category` and `plot_scatter_boxplot_by_category`
print a warning and return early, but `plot_kaya_variable` proceeds to
render without any warning (its only early return is for an empty
variable filter), and `assign_assessment_status` raises (propagates) a
KeyError. -/
theorem no_category_column_spec (cols : List String) (rows : List MetaRow)
    (yearIn : Bool) (h : get_category_column cols = none) :
    plot_timeseries_by_category_outcome cols = PlotOutcome.warnNoCategoryColumn
    ∧ plot_scatter_boxplot_by_category_outcome cols yearIn
        = PlotOutcome.warnNoCategoryColumn
    ∧ plot_kaya_variable_outcome cols false = PlotOutcome.rendered
    ∧ ∃ e, assign_assessment_status_table ⟨cols, rows⟩ = Except.error e := by
  refine ⟨?_, ?_, rfl, "KeyError", ?_⟩
  · simp [plot_timeseries_by_category_outcome, h]
  · simp [plot_scatter_boxplot_by_category_outcome, h]
  · simp [assign_assessment_status_table, h]

/-- Witness for C6 (amended) at a concrete category-less table. -/
theorem no_category_column_spec_witness :
    plot_timeseries_by_category_outcome ["foo", "bar"]
      = PlotOutcome.warnNoCategoryColumn
    ∧ plot_scatter_boxplot_by_category_outcome ["foo", "bar"] true
        = PlotOutcome.warnNoCategoryColumn
    ∧ plot_kaya_variable_outcome ["foo", "bar"] false = PlotOutcome.rendered
    ∧ ∃ e, assign_assessment_status_table ⟨["foo", "bar"], []⟩ = Except.error e :=
  no_category_column_spec ["foo", "bar"] [] true (by decide)

/-- `get_assessment_status` only ever returns one of the three fixed
labels. -/
theorem get_assessment_status_cases (o : Option String) :
    get_assessment_status o = "Climate assessed (C1-C8)"
    ∨ get_assessment_status o = "No assessment"
    ∨ get_assessment_status o = "Failed vetting" := by
  cases o with
  | none => exact Or.inr (Or.inl rfl)
  | some s =>
    have hred : get_assessment_status (some s) =
        (if s ∈ (["C1", "C2", "C3", "C4", "C5", "C6", "C7", "C8"] : List String) then
          "Climate assessed (C1-C8)"
        else if containsSub ("failed").toList (lowerStr s.toList)
             || containsSub ("exclude").toList (lowerStr s.toList) then
          "Failed vetting"
        else "No assessment") := rfl
    rw [hred]
    split
    · exact Or.inl rfl
    · split
      · exact Or.inr (Or.inr rfl)
      · exact Or.inr (Or.inl rfl)

/-- C10: on any metadata table that has a category column,
`assign_assessment_status` succeeds and the `Assessment_Status` column it
produces is total over the three fixed labels: every row's status is
exactly one of them. -/
theorem assessment_status_column_total (t : MetaTable) (c : String)
    (h : get_category_column t.cols = some c) :
    ∃ t2, assign_assessment_status_table t = Except.ok t2
      ∧ ∀ r ∈ t2.mrows,
          r.cell "Assessment_Status" = some ("Climate assessed (C1-C8)")
          ∨ r.cell "Assessment_Status" = some ("No assessment")
          ∨ r.cell "Assessment_Status" = some ("Failed vetting") := by
  simp only [assign_assessment_status_table, h]
  refine ⟨_, rfl, ?_⟩
  intro r hr
  rw [List.mem_map] at hr
  obtain ⟨r0, hr0, hre⟩ := hr
  rw [← hre]
  simp only [if_pos rfl]
  rcases get_assessment_status_cases (r0.cell c) with h1 | h1 | h1 <;> rw [h1]
  · exact Or.inl rfl
  · exact Or.inr (Or.inl rfl)
  · exact Or.inr (Or.inr rfl)

/-- A concrete metadata table with a category column and one row. -/
def exMeta : MetaTable :=
  ⟨["Category"],
   [⟨"m", "s", fun col => if col = "Category" then some ("C3") else none⟩]⟩

/-- Witness for C10 at `exMeta`. -/
theorem assessment_status_column_total_witness :
    ∃ t2, assign_assessment_status_table exMeta = Except.ok t2
      ∧ ∀ r ∈ t2.mrows,
          r.cell "Assessment_Status" = some ("Climate assessed (C1-C8)")
          ∨ r.cell "Assessment_Status" = some ("No assessment")
          ∨ r.cell "Assessment_Status" = some ("Failed vetting") :=
  assessment_status_column_total exMeta "Category" (by decide)

/-! ### Metadata enrichment as store updates (C8)

The enrichment helpers all begin with `meta_enriched = meta.copy()` and
then assign columns on the copy in place.  We model the heap of pandas
DataFrames as a store of tables: `copy()` allocates a fresh slot at the
end of the store, and column assignment overwrites that slot only. -/

abbrev Store := List MetaTable

/-- The table produced by `assign_model_families(meta, min_scenarios)`:
a `Model` column holding the model index level and a `Model_Family`
column holding the normalized (and small-family-merged) families. -/
def assign_model_families_table (t : MetaTable) (min_scenarios : Nat) : MetaTable :=
  let fams := modelFamilyColumn (t.mrows.map (fun r => r.model)) min_scenarios
  ⟨addColName (addColName t.cols "Model") "Model_Family",
   (t.mrows.zip fams).map (fun p =>
     { p.1 with cell := fun col =>
         if col = "Model_Family" then some p.2
         else if col = "Model" then some p.1.model
         else p.1.cell col })⟩

/-- `assign_model_families` as a store update: copy, then enrich the
copy in place; the fresh slot's index is returned. -/
def assign_model_families_st (s : Store) (r : Nat) (min_scenarios : Nat) :
    Store × Nat :=
  let t := s.getD r default
  ((s ++ [t]).set s.length (assign_model_families_table t min_scenarios), s.length)

/-- `assign_assessment_status` as a store update.  On a table with no
category column the copy has been made but the KeyError propagates
before any column is assigned (`none` result). -/
def assign_assessment_status_st (s : Store) (r : Nat) : Store × Option Nat :=
  let t := s.getD r default
  match assign_assessment_status_table t with
  | Except.error _ => (s ++ [t], none)
  | Except.ok t2 => ((s ++ [t]).set s.length t2, some s.length)

/-- Decimal digits to a natural number. -/
def digitsToNat (ds : List Char) : Nat :=
  ds.foldl (fun n c => 10 * n + (c.toNat - 48)) 0

/-- `int(float(val))` for a plain decimal literal (optional sign, digit
run, optional all-digit fraction); `float()` truncates toward zero when
converted by `int()`, so only the integer part matters.  Other shapes
make the `try` fail.  (Exponent notation is not modelled; the AR6
`Ssp_family` cells are plain decimals.) -/
def pyFloatIntPart (l : List Char) : Option Int :=
  let core : List Char → Option Int := fun m =>
    let ds := m.takeWhile Char.isDigit
    let rest := m.dropWhile Char.isDigit
    if ds.isEmpty then none
    else
      match rest with
      | [] => some (Int.ofNat (digitsToNat ds))
      | '.' :: frac =>
        if frac.all Char.isDigit then some (Int.ofNat (digitsToNat ds)) else none
      | _ => none
  match l with
  | '-' :: rest => (core rest).map (fun n => -n)
  | _ => core l

/-- `_classify_ssp(val)`. -/
def classify_ssp (val : Option String) : String :=
  match val with
  | none => "Other/Unknown"
  | some v =>
    match pyFloatIntPart v.toList with
    | none => "Other/Unknown"
    | some n => if 1 ≤ n ∧ n ≤ 5 then "SSP" ++ toString n else "Other/Unknown"

/-- The table produced by `assign_ssp_family(meta)`: classify the
`Ssp_family` column when present, otherwise print a warning and set the
whole column to `"Unknown"`. -/
def assign_ssp_family_table (t : MetaTable) : MetaTable :=
  if "Ssp_family" ∈ t.cols then
    ⟨addColName t.cols "SSP_Family",
     t.mrows.map (fun r =>
       { r with cell := fun col =>
           if col = "SSP_Family" then some (classify_ssp (r.cell "Ssp_family"))
           else r.cell col })⟩
  else
    ⟨addColName t.cols "SSP_Family",
     t.mrows.map (fun r =>
       { r with cell := fun col =>
           if col = "SSP_Family" then some ("Unknown") else r.cell col })⟩

/-- `assign_ssp_family` as a store update. -/
def assign_ssp_family_st (s : Store) (r : Nat) : Store × Nat :=
  let t := s.getD r default
  ((s ++ [t]).set s.length (assign_ssp_family_table t), s.length)

theorem set_fresh_preserves (s : Store) (t t2 : MetaTable) (i : Nat)
    (hi : i < s.length) : ((s ++ [t]).set s.length t2)[i]? = s[i]? := by
  rw [List.getElem?_set_ne (Nat.ne_of_lt hi).symm, List.getElem?_append_left hi]

/-- C8: none of the three enrichment helpers mutates any pre-existing
table in the store — in particular the caller's input table is unchanged
— and each successful call returns a fresh slot holding the input table
with the new column(s) added. -/
theorem enrichment_preserves_input (s : Store) (r i min_scenarios : Nat)
    (hi : i < s.length) :
    ((assign_model_families_st s r min_scenarios).1[i]? = s[i]?)
    ∧ ((assign_assessment_status_st s r).1[i]? = s[i]?)
    ∧ ((assign_ssp_family_st s r).1[i]? = s[i]?)
    ∧ ((assign_model_families_st s r min_scenarios).1[
          (assign_model_families_st s r min_scenarios).2]?
        = some (assign_model_families_table (s.getD r default) min_scenarios))
    ∧ ((assign_ssp_family_st s r).1[(assign_ssp_family_st s r).2]?
        = some (assign_ssp_family_table (s.getD r default)))
    ∧ "Model_Family" ∈ (assign_model_families_table (s.getD r default) min_scenarios).cols
    ∧ "SSP_Family" ∈ (assign_ssp_family_table (s.getD r default)).cols := by
  have hlen : s.length < (s ++ [s.getD r default]).length := by
    simp
  refine ⟨set_fresh_preserves s _ _ i hi, ?_, set_fresh_preserves s _ _ i hi,
          ?_, ?_, ?_, ?_⟩
  · rw [assign_assessment_status_st]
    split
    · exact List.getElem?_append_left hi
    · exact set_fresh_preserves s _ _ i hi
  · exact List.getElem?_set_self hlen
  · exact List.getElem?_set_self hlen
  · have : ∀ cols : List String, "Model_Family" ∈ addColName cols "Model_Family" := by
      intro cols
      rw [addColName]
      split
      · assumption
      · exact List.mem_append_right _ (List.mem_singleton.mpr rfl)
    exact this _
  · rw [assign_ssp_family_table]
    have hmem : ∀ cols : List String, "SSP_Family" ∈ addColName cols "SSP_Family" := by
      intro cols
      rw [addColName]
      split
      · assumption
      · exact List.mem_append_right _ (List.mem_singleton.mpr rfl)
    split
    · exact hmem _
    · exact hmem _

/-- Witness for C8: on a one-table store, all three enrichment calls
leave the input slot unchanged. -/
theorem enrichment_preserves_input_witness :
    ((assign_model_families_st [exMeta] 0 50).1[0]? = [exMeta][0]?)
    ∧ ((assign_assessment_status_st [exMeta] 0).1[0]? = [exMeta][0]?)
    ∧ ((assign_ssp_family_st [exMeta] 0).1[0]? = [exMeta][0]?) :=
  ⟨(enrichment_preserves_input [exMeta] 0 0 50 (by decide)).1,
   (enrichment_preserves_input [exMeta] 0 0 50 (by decide)).2.1,
   (enrichment_preserves_input [exMeta] 0 0 50 (by decide)).2.2.1⟩

/-! ### `count_scenarios_by_group` (C9) -/

/-- `status_order` in `count_scenarios_by_group`. -/
def statusOrderL : List String :=
  ["Climate assessed (C1-C8)", "No assessment", "Failed vetting"]

/-- pandas `head(n)` with Python semantics: a nonnegative `n` keeps the
first `n` rows; a negative `n` keeps all but the last `|n|`. -/
def pdHead (l : List (String × List Nat)) (n : Int) : List (String × List Nat) :=
  if 0 ≤ n then l.take n.toNat else l.take (l.length - (-n).toNat)

/-- The column selection
`counts[[s for s in status_order if s in counts.columns]]`. -/
def csbgCols (rows : List (String × String)) : List String :=
  statusOrderL.filter (fun st => st ∈ rows.map Prod.snd)

/-- The pivot's index: the distinct group labels. -/
def csbgGroups (rows : List (String × String)) : List String :=
  (rows.map Prod.fst).dedup

/-- `meta.groupby([group_col, status_col]).size().unstack(fill_value=0)`
restricted to the selected columns: one row per group, one count per
selected status. -/
def csbgTable (rows : List (String × String)) : List (String × List Nat) :=
  (csbgGroups rows).map (fun g =>
    (g, (csbgCols rows).map (fun st =>
      rows.countP (fun p => p.1 = g ∧ p.2 = st))))

/-- Descending order on the `_total` sort key
(`counts.sort_values('_total', ascending=False)`); the `_total` helper
column is the row sum of the selected counts and is dropped from the
result, so it is carried here as the computed key `(·).2.sum`. -/
def totalGe (a b : String × List Nat) : Prop := b.2.sum ≤ a.2.sum

instance : DecidableRel totalGe := fun _ _ => Nat.decLe _ _

instance : IsTotal (String × List Nat) totalGe :=
  ⟨fun a b => le_total b.2.sum a.2.sum⟩

instance : IsTrans (String × List Nat) totalGe :=
  ⟨fun _ _ _ h1 h2 => le_trans h2 h1⟩

/-- The pivot sorted by descending total. -/
def csbgSorted (rows : List (String × String)) : List (String × List Nat) :=
  List.insertionSort totalGe (csbgTable rows)

/-- `ssp_order` used for the `SSP_Family` reindex. -/
def sspOrderL : List String :=
  ["SSP1", "SSP2", "SSP3", "SSP4", "SSP5", "Other/Unknown"]

/-- `count_scenarios_by_group(meta, group_col, status_col, n_top)`; the
input is the `(group, status)` pair of each metadata row, and the result
is (selected status columns, pivot rows).  With `n_top` given and an
`"Other"` group present, the `Other` row is pulled out, the rest is cut
to `n_top - 1`, and `Other` is re-appended last; for
`group_col == 'SSP_Family'` the rows are finally reindexed in SSP
order. -/
def count_scenarios_by_group (rows : List (String × String)) (groupCol : String)
    (nTop : Option Int) : List String × List (String × List Nat) :=
  let sorted := csbgSorted rows
  let topped :=
    match nTop with
    | none => sorted
    | some n =>
      if "Other" ∈ csbgGroups rows then
        pdHead (sorted.filter (fun p => p.1 ≠ "Other")) (n - 1)
          ++ sorted.filter (fun p => p.1 = "Other")
      else pdHead sorted n
  let final :=
    if groupCol = "SSP_Family" then
      (sspOrderL.filter (fun st => st ∈ topped.map Prod.fst)).filterMap
        (fun st => topped.find? (fun p => p.1 = st))
    else topped
  (csbgCols rows, final)

/-- C9 counterexample: with `n_top = 0` (pandas `head(-1)` keeps all but
the last row) and an `"Other"` group present, the result has 1 > 0 rows,
refuting "at most n_top rows" as universally stated. -/
theorem count_scenarios_n_top_zero :
    ("Other" ∈ ([("A", "No assessment"), ("Other", "No assessment")].map Prod.fst))
    ∧ (count_scenarios_by_group [("A", "No assessment"), ("Other", "No assessment")]
          "Model_Family" (some 0)).2.length = 1
    ∧ ¬((count_scenarios_by_group [("A", "No assessment"), ("Other", "No assessment")]
          "Model_Family" (some 0)).2.length ≤ 0) :=
  ⟨by decide, by decide, by decide⟩

/-- The pivot's row labels are exactly the distinct groups. -/
theorem csbgTable_map_fst (rows : List (String × String)) :
    (csbgTable rows).map Prod.fst = csbgGroups rows := by
  rw [csbgTable, List.map_map]
  exact List.map_id _

/-- In a list of rows with pairwise-distinct labels, filtering on a label
that occurs yields exactly one row. -/
theorem filter_key_singleton (l : List (String × List Nat)) (k : String)
    (hnd : (l.map Prod.fst).Nodup) (hk : k ∈ l.map Prod.fst) :
    ∃ o, l.filter (fun p => p.1 = k) = [o] ∧ o.1 = k := by
  induction l with
  | nil => exact absurd hk (by simp)
  | cons a l ih =>
    rw [List.map_cons, List.nodup_cons] at hnd
    by_cases ha : a.1 = k
    · refine ⟨a, ?_, ha⟩
      rw [List.filter_cons_of_pos (by simpa using ha)]
      have hnil : l.filter (fun p => p.1 = k) = [] := by
        rw [List.filter_eq_nil_iff]
        intro p hp hpk
        rw [decide_eq_true_eq] at hpk
        exact hnd.1 (by rw [ha, ← hpk]; exact List.mem_map.mpr ⟨p, hp, rfl⟩)
      rw [hnil]
    · rw [List.filter_cons_of_neg (by simpa using ha)]
      rw [List.map_cons, List.mem_cons] at hk
      rcases hk with hk1 | hk2
      · exact absurd hk1.symm ha
      · exact ih hnd.2 hk2

/-- C9 (amended): for enriched metadata (statuses among the three fixed
labels), a grouping column other than `SSP_Family`, `n_top ≥ 1`, and an
`"Other"` group present: the pivot's columns are exactly the
status labels actually present, in the fixed order, without the
`_total` helper; the result has at most `n_top` rows with `"Other"`
last; and the rows before `"Other"` are sorted by descending total and
are the largest non-`Other` groups (every omitted non-`Other` group has
a total no larger than any kept row).  (For `n_top = 0` the claim fails:
pandas `head(-1)` keeps rows, see the counterexample.) -/
theorem count_scenarios_by_group_spec (rows : List (String × String))
    (groupCol : String) (n : Int)
    (henr : ∀ p ∈ rows, p.2 ∈ statusOrderL)
    (hn : 1 ≤ n)
    (hoth : "Other" ∈ rows.map Prod.fst)
    (hssp : groupCol ≠ "SSP_Family") :
    ((count_scenarios_by_group rows groupCol (some n)).1
        = statusOrderL.filter (fun st => st ∈ rows.map Prod.snd)
      ∧ (∀ st, st ∈ (count_scenarios_by_group rows groupCol (some n)).1
          ↔ st ∈ rows.map Prod.snd)
      ∧ "_total" ∉ (count_scenarios_by_group rows groupCol (some n)).1)
    ∧ (count_scenarios_by_group rows groupCol (some n)).2.length ≤ n.toNat
    ∧ ((count_scenarios_by_group rows groupCol (some n)).2.map Prod.fst).getLast?
        = some ("Other")
    ∧ List.Sorted totalGe (count_scenarios_by_group rows groupCol (some n)).2.dropLast
    ∧ ∀ p ∈ (count_scenarios_by_group rows groupCol (some n)).2.dropLast,
        ∀ q ∈ csbgTable rows, q.1 ≠ "Other" →
          q.1 ∉ ((count_scenarios_by_group rows groupCol (some n)).2.dropLast).map
            Prod.fst →
          q.2.sum ≤ p.2.sum := by
  have hng : (0 : Int) ≤ n - 1 := by omega
  have hothg : "Other" ∈ csbgGroups rows := List.mem_dedup.mpr hoth
  have hperm : (csbgSorted rows).Perm (csbgTable rows) :=
    List.perm_insertionSort totalGe (csbgTable rows)
  have hres : count_scenarios_by_group rows groupCol (some n)
      = (csbgCols rows,
         pdHead ((csbgSorted rows).filter (fun p => p.1 ≠ "Other")) (n - 1)
           ++ (csbgSorted rows).filter (fun p => p.1 = "Other")) := by
    simp only [count_scenarios_by_group, if_pos hothg, if_neg hssp]
  have hnd : ((csbgSorted rows).map Prod.fst).Nodup := by
    refine (hperm.map Prod.fst).nodup_iff.mpr ?_
    rw [csbgTable_map_fst]
    exact (rows.map Prod.fst).nodup_dedup
  have hkmem : "Other" ∈ (csbgSorted rows).map Prod.fst := by
    rw [(hperm.map Prod.fst).mem_iff, csbgTable_map_fst]
    exact hothg
  obtain ⟨o, ho, ho1⟩ := filter_key_singleton (csbgSorted rows) "Other" hnd hkmem
  have hsorted : List.Sorted totalGe (csbgSorted rows) :=
    List.sorted_insertionSort totalGe (csbgTable rows)
  have hxs : pdHead ((csbgSorted rows).filter (fun p => p.1 ≠ "Other")) (n - 1)
      = ((csbgSorted rows).filter (fun p => p.1 ≠ "Other")).take (n - 1).toNat := by
    rw [pdHead, if_pos hng]
  have hrest : List.Sorted totalGe ((csbgSorted rows).filter (fun p => p.1 ≠ "Other")) :=
    hsorted.filter _
  refine ⟨⟨?_, ?_, ?_⟩, ?_, ?_, ?_, ?_⟩
  · rw [hres]; rfl
  · intro st
    rw [hres]
    constructor
    · intro h
      exact of_decide_eq_true (List.mem_filter.mp h).2
    · intro h
      refine List.mem_filter.mpr ⟨?_, by simpa using h⟩
      obtain ⟨p, hp, rfl⟩ := List.mem_map.mp h
      exact henr p hp
  · rw [hres]
    intro h
    have := List.mem_of_mem_filter h
    exact absurd this (by decide)
  · rw [hres, ho, hxs]
    simp only [List.length_append, List.length_singleton]
    have h1 := ((csbgSorted rows).filter (fun p => p.1 ≠ "Other")).length_take_le
      (n - 1).toNat
    omega
  · rw [hres, ho, List.map_append]
    simp only [List.map_cons, List.map_nil]
    rw [List.getLast?_concat]
    rw [ho1]
  · rw [hres, ho, List.dropLast_concat, hxs]
    exact hrest.sublist (List.take_sublist _ _)
  · intro p hp q hq hqo hqn
    rw [hres, ho, List.dropLast_concat, hxs] at hp hqn
    have hqs : q ∈ csbgSorted rows := hperm.mem_iff.mpr hq
    have hqr : q ∈ (csbgSorted rows).filter (fun p => p.1 ≠ "Other") :=
      List.mem_filter.mpr ⟨hqs, by simpa using hqo⟩
    rw [← List.take_append_drop (n - 1).toNat
      ((csbgSorted rows).filter (fun p => p.1 ≠ "Other"))] at hrest hqr
    rcases List.mem_append.mp hqr with hq1 | hq2
    · exact absurd (List.mem_map.mpr ⟨q, hq1, rfl⟩) hqn
    · exact (List.pairwise_append.mp hrest).2.2 p hp q hq2

/-- Witness for C9 (amended) at a concrete enriched table with groups
`A` (2 scenarios) and `Other` (1): at most `n_top = 2` rows, `Other`
last. -/
theorem count_scenarios_by_group_spec_witness :
    (count_scenarios_by_group
        [("A", "No assessment"), ("A", "No assessment"), ("Other", "No assessment")]
        "Model_Family" (some 2)).2.length ≤ (2 : Int).toNat
    ∧ ((count_scenarios_by_group
        [("A", "No assessment"), ("A", "No assessment"), ("Other", "No assessment")]
        "Model_Family" (some 2)).2.map Prod.fst).getLast? = some ("Other") :=
  ⟨(count_scenarios_by_group_spec
      [("A", "No assessment"), ("A", "No assessment"), ("Other", "No assessment")]
      "Model_Family" 2 (by decide) (by decide) (by decide) (by decide)).2.1,
   (count_scenarios_by_group_spec
      [("A", "No assessment"), ("A", "No assessment"), ("Other", "No assessment")]
      "Model_Family" 2 (by decide) (by decide) (by decide) (by decide)).2.2.1⟩
